import Mathlib

/-!
Shallow embedding of the view-dispatch core of `django_mako_plus/router.py`
(the resolver factory, the per-view routers, and the front-controller
dispatch loop), together with theorems checking the specification's claims
against it.

The embedding follows the source file line by line.  Collaborator code that
is not part of the repository snapshot (the `URLParamList` url-parameter
class, the conversion pipeline of `converter.py`, django's `View` base
class) is modelled from the specification's description and marked
`Modelled from the spec:` in its doc comment.
-/

deriving instance DecidableEq for Except

namespace DMP

/-- Python runtime values, restricted to the shapes the router manipulates:
strings (url segments), integers, `None`, the `inspect.Parameter.empty`
sentinel, the request object, and response objects.  `response status body`
stands for an `HttpResponse` (and its subclasses, distinguished by status
code); `streaming body` stands for a `StreamingHttpResponse`. -/
inductive Val where
  | str (s : String)
  | intVal (n : Int)
  | pyNone
  | empty
  | reqObj
  | response (status : Nat) (body : String)
  | streaming (body : String)
  deriving DecidableEq, Repr

/-- `isinstance(v, (HttpResponse, StreamingHttpResponse))` from the source:
true exactly for response objects. -/
def isResponse : Val → Bool
  | .response _ _ => true
  | .streaming _ => true
  | _ => false

/-- Python exceptions that the embedded code can raise. -/
inductive PyErr where
  | http404
  | viewDoesNotExist (msg : String)
  | templateDoesNotExist (msg : String)
  | attributeError (attr : String)
  | nameError (name : String)
  | moduleNotFoundError (msg : String)
  | improperlyConfigured (msg : String)
  deriving DecidableEq, Repr

/-- Keyword arguments (`**kwargs`): a Python dict modelled as an association
list with the dict's unique-key reading; `pop` is lookup plus removal of the
key's binding. -/
abbrev Dict := List (String × Val)

/-- ASCII lowercasing, modelling Python's `str.lower()` on HTTP method
names. -/
def pyLower (s : String) : String := ⟨s.data.map Char.toLower⟩

/-- ASCII uppercasing, modelling Python's `str.upper()` on HTTP method
names. -/
def pyUpper (s : String) : String := ⟨s.data.map Char.toUpper⟩

/-- The source's `ViewParameter` data class (name, declared type, default).
The optional per-parameter converter that the source stores on the same
object is carried alongside each parameter in the router's parameter list
(see `ViewFunctionRouter.parameters`); splitting it off avoids a circular
type (converters take the parameter they convert). -/
structure ViewParameter where
  name : String
  type : Option String
  default : Val
  deriving DecidableEq, Repr

/-- The source's `ConversionTask`: the per-invocation bundle handed to every
converter call (`ConversionTask(request, decorator_kwargs, module,
function)`).  Only the module/function identity matters to the claims; the
task's own `converter` attribute is carried as
`ViewFunctionRouter.task_converter`. -/
structure ConversionTask where
  module : String
  function : String
  deriving DecidableEq, Repr

/-- A converter callable: `converter(value, parameter, ctask)`. -/
abbrev Conv := Val → ViewParameter → ConversionTask → Val

/-- Modelled from the spec: the ConversionPipeline's type-driven default
converter (`converter.py` is not in the source snapshot).  The spec says a
declared parameter with no supplied url value receives its declared
default, so the pipeline maps the missing-segment sentinel (the empty url
segment) to the parameter's declared default when one exists. -/
def default_pipeline_converter : Conv := fun v p _ =>
  if v = .str "" ∧ p.default ≠ .empty then p.default else v

/-- The request object, restricted to the attributes the routers read:
`request.method`, `request.path` and `request.urlparams` (the positional
url segments). -/
structure Request where
  method : String
  path : String
  urlparams : List String
  deriving DecidableEq, Repr

/-- Modelled from the spec: reading `request.urlparams[i]` (the
`URLParamList` class is not in the source snapshot).  An index beyond the
provided segments reads as the empty segment, which the conversion
pipeline maps to the parameter's declared default. -/
def urlparams_get (up : List String) (i : Nat) : Val :=
  match up.get? i with
  | some s => .str s
  | none => .str ""

/-- Modelled from the spec: `request.urlparams.check_length(n)` (not in the
source snapshot) validates that the number of positional url parameters
does not exceed the number of declared parameters, and otherwise fails with
the "too many URL segments" condition that maps externally to a not-found
response (`Http404`). -/
def check_length (up : List String) (n : Nat) : Except PyErr Unit :=
  if n < up.length then .error .http404 else .ok ()

/-- `ViewFunctionRouter.__init__`'s result: the target module and function,
the ordered parameter descriptors (each with its optional per-parameter
converter), and the conversion task's view-function converter (specified by
decorator kwargs or defaulted -- the source calls it `ctask.converter`). -/
structure ViewFunctionRouter where
  module : String
  function : String
  parameters : List (ViewParameter × Option Conv)
  task_converter : Conv

/-- One conversion step of `ViewFunctionRouter.get_response`: the
parameter-specific converter when set (`parameter.converter(value,
parameter, ctask)`), else the task's converter (`ctask.converter(value,
parameter, ctask)`). -/
def apply_converter (tc : Conv) (ct : ConversionTask) (oc : Option Conv)
    (v : Val) (p : ViewParameter) : Val :=
  match oc with
  | some c => c v p ct
  | none => tc v p ct

/-- The `for i, parameter in enumerate(self.parameters)` loop of
`ViewFunctionRouter.get_response`: for each parameter, `value =
kwargs.pop(parameter.name, request.urlparams[i])` (the kwargs value when the
name is present, removing the binding; else the positional segment), then
one converter application; returns the built argument tail and the
remaining kwargs. -/
def arg_loop (tc : Conv) (ct : ConversionTask) (up : List String) :
    List (ViewParameter × Option Conv) → Nat → Dict → List Val × Dict
  | [], _, kwargs => ([], kwargs)
  | (p, oc) :: ps, i, kwargs =>
    let value := match kwargs.lookup p.name with
      | some v => v
      | none => urlparams_get up i
    let kwargs1 := kwargs.filter fun kv => kv.1 != p.name
    let converted := apply_converter tc ct oc value p
    let rest := arg_loop tc ct up ps (i + 1) kwargs1
    (converted :: rest.1, rest.2)

/-- `ViewFunctionRouter.get_response(request, **kwargs)`: check the url
parameter count, build the conversion task, run the parameter loop starting
from `args = [request]`, and call `self.function(*args, **kwargs)`.  The
handler call itself is represented by the pair (positional argument list,
remaining keyword arguments) handed to the view function. -/
def ViewFunctionRouter.get_response (vfr : ViewFunctionRouter)
    (request : Request) (kwargs : Dict) : Except PyErr (List Val × Dict) :=
  match check_length request.urlparams vfr.parameters.length with
  | .error e => .error e
  | .ok _ =>
    let ct : ConversionTask := ⟨vfr.module, vfr.function⟩
    let built := arg_loop vfr.task_converter ct request.urlparams
      vfr.parameters 0 kwargs
    .ok (Val.reqObj :: built.1, built.2)

/-- The raw value the source's loop selects for one parameter:
`kwargs.pop(parameter.name, request.urlparams[i])`. -/
def chosen_value (kwargs : Dict) (name : String) (up : List String)
    (i : Nat) : Val :=
  match kwargs.lookup name with
  | some v => v
  | none => urlparams_get up i

/-- The argument tail the amended claim C1 describes: for each declared
parameter in order, the kwargs value if the name is present, else the
positional url segment, converted exactly once by the parameter-specific
converter if set, else the task's converter. -/
def expected_args (tc : Conv) (ct : ConversionTask) (up : List String)
    (kwargs : Dict) : List (ViewParameter × Option Conv) → Nat → List Val
  | [], _ => []
  | (p, oc) :: ps, i =>
    apply_converter tc ct oc (chosen_value kwargs p.name up i) p ::
      expected_args tc ct up kwargs ps (i + 1)

/-- The raw value claim C1 as written mandates (following the spec's words,
for comparison with the source's `chosen_value`): the corresponding
positional url value if one is provided, otherwise a same-named value from
extraKwargs, otherwise the parameter's declared default. -/
def claim_chosen_value (kwargs : Dict) (p : ViewParameter)
    (up : List String) (i : Nat) : Val :=
  match up.get? i with
  | some s => .str s
  | none =>
    match kwargs.lookup p.name with
    | some v => v
    | none => p.default

/-- `django.views.generic.View.http_method_names` (external collaborator
constant): the recognized HTTP method names, in declaration order. -/
def View_http_method_names : List String :=
  ["get", "post", "put", "patch", "delete", "head", "options", "trace"]

/-- An instantiated class-based view (`func()` in the factory): its
`http_method_names` attribute and its bound methods, keyed by method name
(`getattr(instance, mthd_name, None)`).  A bound method is identified by an
opaque tag. -/
structure ViewInstance where
  http_method_names : List String
  method : String → Option String

/-- `ClassBasedRouter.__init__`'s result: the mapping from lower-cased HTTP
method name to the `ViewFunctionRouter` wrapping that bound method (each
entry `(m, f)` stands for `self.endpoints[m] = ViewFunctionRouter(module,
f, decorator_kwargs)`), in `http_method_names` order. -/
structure ClassBasedRouter where
  endpoints : List (String × String)
  deriving DecidableEq, Repr

/-- `ClassBasedRouter.__init__`: for each recognized method name, if the
instance defines the method, wrap it in a `ViewFunctionRouter` endpoint. -/
def ClassBasedRouter.init (inst : ViewInstance) : ClassBasedRouter :=
  ⟨inst.http_method_names.filterMap fun m =>
    (inst.method m).map fun f => (m, f)⟩

/-- The outcome of `ClassBasedRouter.get_response`: either delegation to the
`ViewFunctionRouter` endpoint wrapping the named bound method
(`endpoint.get_response(request, **kwargs)`), or an
`HttpResponseNotAllowed` carrying the upper-cased supported method names. -/
inductive ClassRouteResult where
  | delegate (funcTag : String)
  | methodNotAllowed (allowed : List String)
  deriving DecidableEq, Repr

/-- `ClassBasedRouter.get_response(request, **kwargs)`: look up the endpoint
keyed by `request.method.lower()`; if present delegate to it, otherwise log
and return `HttpResponseNotAllowed([e.upper() for e in
self.endpoints.keys()])`. -/
def ClassBasedRouter.get_response (r : ClassBasedRouter) (request : Request)
    (_kwargs : Dict) : ClassRouteResult :=
  match r.endpoints.lookup (pyLower request.method) with
  | some f => .delegate f
  | none => .methodNotAllowed (r.endpoints.map fun e => pyUpper e.1)

/-- The names bound at module level in `router.py`: its imports and its
top-level definitions.  Python resolves a global name at call time against
exactly this set. -/
def router_module_names : List String :=
  ["settings", "url", "ImproperlyConfigured", "ViewDoesNotExist",
   "HttpRequest", "HttpResponse", "StreamingHttpResponse", "Http404",
   "HttpResponseNotAllowed", "TemplateDoesNotExist", "View",
   "ConversionTask", "view_function", "view_parameter", "NotDecoratedError",
   "InternalRedirectException", "RedirectException",
   "dmp_signal_pre_process_request", "dmp_signal_post_process_request",
   "dmp_signal_internal_redirect_exception", "dmp_signal_redirect_exception",
   "get_dmp_instance", "get_dmp_app_configs", "log", "DMP_OPTIONS", "sys",
   "logging", "inspect", "import_module", "find_spec", "namedtuple",
   "route_request", "router_factory", "ViewFunctionRouter",
   "ClassBasedRouter", "TemplateViewRouter", "RegistryExceptionRouter",
   "ViewParameter"]

/-- `RegistryExceptionRouter`: holds the captured `ViewDoesNotExist`
exception (here, its string form `str(self.exc)`). -/
structure RegistryExceptionRouter where
  exc : String
  deriving DecidableEq, Repr

/-- `RegistryExceptionRouter.get_response(request, **kwargs)`: the source
executes `return HttpResponseNotFound(str(self.exc))`.  The global name
`HttpResponseNotFound` is resolved at call time against `router.py`'s
module namespace; when absent, Python raises `NameError`. -/
def RegistryExceptionRouter.get_response (r : RegistryExceptionRouter)
    (_request : Request) (_kwargs : Dict) : Except PyErr Val :=
  if router_module_names.contains "HttpResponseNotFound" then
    .ok (.response 404 r.exc)
  else
    .error (.nameError "HttpResponseNotFound")

/-- `RegistryExceptionRouter.message(request)`: `str(self.exc)`. -/
def RegistryExceptionRouter.message (r : RegistryExceptionRouter)
    (_request : Request) : String := r.exc

/-- The result of `find_spec(module_name)` in the factory: the module spec
was found; the module is absent (`find_spec` returned `None`); `find_spec`
raised `ValueError` (the only exception the factory catches there, treated
as absent); or `find_spec` raised `ModuleNotFoundError` (a dotted module
name whose parent package is missing or is a plain module), which no
handler in `router_factory` catches. -/
inductive FindSpecResult where
  | found
  | absent
  | valueError
  | moduleNotFound (msg : String)
  deriving DecidableEq, Repr

/-- The module attribute `getattr(module, function_name)` names, as the
factory inspects it: whether it is a class-based view (`inspect.isclass`
and `issubclass(func, View)`), whether it carries the `@view_function`
marker (`view_function.is_decorated`), and -- when a class -- the instance
`func()` produces. -/
structure Func where
  is_class_view : Bool
  decorated : Bool
  inst : ViewInstance

/-- The collaborator surface `router_factory` consults: the module spec
lookup; the module import (`import_module(module_name)` -- deliberately
outside any handler for its own failures, per the source comment, so a
failing import's exception reaches the factory's caller unless it happens
to be a `ViewDoesNotExist`); attribute lookup on the imported module; and
template loading by the template collaborator (`.error e` carries `str(e)`
of the raised `TemplateDoesNotExist`). -/
structure FactoryEnv where
  find_spec : String → FindSpecResult
  import_mod : String → Except PyErr Unit
  get_attr : String → String → Option Func
  load_template : String → String → Except String Unit

/-- The polymorphic resolver `router_factory` returns: a
`ViewFunctionRouter`, a `ClassBasedRouter`, a `TemplateViewRouter` (app
name, template name), or a `RegistryExceptionRouter` carrying the captured
diagnostic. -/
inductive Resolver where
  | viewFunction (module function : String)
  | classBased (router : ClassBasedRouter)
  | template (app template : String)
  | registryException (msg : String)
  deriving DecidableEq, Repr

/-- The body of `router_factory` inside its outer `try`: spec lookup (with
`except ValueError: spec = None` -- a raised `ModuleNotFoundError`
propagates), fallback to `TemplateViewRouter` when the spec is `None`
(re-raising `TemplateDoesNotExist` as `ViewDoesNotExist` mentioning both
failures), the unguarded `import_module` (whose failure propagates),
attribute lookup (re-raising `AttributeError` as `ViewDoesNotExist`), the
class-based branch, and the decoration check. -/
def router_factory_body (env : FactoryEnv) (app_name module_name
    function_name fallback_template : String) : Except PyErr Resolver :=
  let specOrRaise : Except PyErr (Option Unit) :=
    match env.find_spec module_name with
    | .found => .ok (some ())
    | .absent => .ok none
    | .valueError => .ok none
    | .moduleNotFound msg => .error (.moduleNotFoundError msg)
  match specOrRaise with
  | .error e => .error e
  | .ok none =>
    match env.load_template app_name fallback_template with
    | .ok _ => .ok (.template app_name fallback_template)
    | .error e =>
      .error (.viewDoesNotExist ("View module " ++ module_name ++
        " not found, and fallback template " ++ fallback_template ++
        " could not be loaded (" ++ e ++ ")"))
  | .ok (some _) =>
    match env.import_mod module_name with
    | .error e => .error e
    | .ok _ =>
      match env.get_attr module_name function_name with
      | none =>
        .error (.viewDoesNotExist ("Module " ++ module_name ++
          " found successfully, but view " ++ function_name ++
          " is not defined in the module."))
      | some func =>
        if func.is_class_view then
          .ok (.classBased (ClassBasedRouter.init func.inst))
        else if func.decorated then
          .ok (.viewFunction module_name function_name)
        else
          .error (.viewDoesNotExist ("View " ++ module_name ++ "." ++
            function_name ++
            " was found successfully, but it must be decorated with " ++
            "@view_function or be a subclass of django.views.generic.View."))

/-- `router_factory(app_name, module_name, function_name,
fallback_template)`: run the body and fold any `ViewDoesNotExist` raised
along the lookup path into a returned `RegistryExceptionRouter` (`except
ViewDoesNotExist as vdne: return RegistryExceptionRouter(vdne)`). -/
def router_factory (env : FactoryEnv) (app_name module_name function_name
    fallback_template : String) : Except PyErr Resolver :=
  match router_factory_body env app_name module_name function_name
      fallback_template with
  | .error (.viewDoesNotExist msg) => .ok (.registryException msg)
  | r => r

/-- What one invocation of the cached callback's `get_response` does, as the
dispatch loop observes it: return a value (possibly not a response object),
raise `InternalRedirectException(redirect_module, redirect_function)`, or
raise a `RedirectException` whose own `get_response(request)` yields
`resp`. -/
inductive Outcome where
  | ret (v : Val)
  | internalRedirect (redirect_module redirect_function : String)
  | redirect (resp : Val)
  deriving DecidableEq, Repr

/-- The object stored in `request.dmp_router_callback`: a raw
`ViewDoesNotExist` exception instance (assigned on a failed internal
redirect), a `RegistryExceptionRouter` (assigned from the registry for a
broken route), or a working router whose invocation produces the given
outcome. -/
inductive Callback where
  | viewDoesNotExist (msg : String)
  | registryExc (msg : String)
  | handler (out : Outcome)
  deriving DecidableEq, Repr

/-- The result of re-resolving an internal-redirect target:
`import_module` raised `ImportError`, the module imported but
`getattr(module, function, None)` returned `None`, or the looked-up
attribute (the new callback). -/
inductive ResolveResult where
  | importError
  | notDefined
  | found (cb : Callback)
  deriving DecidableEq, Repr

/-- Observable events of one pass through the dispatch loop, in order:
error-level log records, the pre/post signal sends, the redirect signal
sends, and the import-plus-attribute-lookup re-resolution performed by the
internal-redirect handler. -/
inductive Event where
  | logError (msg : String)
  | preHook
  | postHook
  | internalRedirectHook
  | redirectHook
  | reresolve (module function : String)
  deriving DecidableEq, Repr

/-- `e.matches .reresolve`: recognizer for re-resolution events. -/
def Event.isReresolve : Event → Bool
  | .reresolve _ _ => true
  | _ => false

/-- The collaborator surface of `route_request`: the `SIGNALS` option flag,
the registered pre-request and post-request signal receivers (each entry is
the receiver's return value; `pyNone` for a receiver returning `None`), and
the import/getattr resolution used by the internal-redirect handler. -/
structure Env where
  signals : Bool
  pre_hooks : List Val
  post_hooks : List Val
  resolve : String → String → ResolveResult

/-- The dispatch-context fields `route_request` reads and writes on the
request: `dmp_router_callback`, `dmp_router_module`, `dmp_router_function`
and `dmp_router_class`. -/
structure RState where
  dmp_router_callback : Option Callback
  dmp_router_module : String
  dmp_router_function : String
  dmp_router_class : Option String
  deriving DecidableEq, Repr

/-- The pre-signal scan: `for receiver, ret_response in
dmp_signal_pre_process_request.send(...)`, returning the first receiver
value that is a response instance, if any. -/
def pre_chain (pres : List Val) : Option Val := pres.find? isResponse

/-- The post-signal fold: each receiver may replace the response by
returning a non-`None` value; the last non-`None` return value wins. -/
def post_chain (posts : List Val) (v : Val) : Val :=
  posts.foldl (fun acc r => if r ≠ .pyNone then r else acc) v

/-- `ViewFunctionRouter.message(request)`: the descriptive string logged for
the current callback, built from the dispatch context's module and function
fields. -/
def handler_message (s : RState) : String :=
  "view function " ++ s.dmp_router_module ++ "." ++ s.dmp_router_function

/-- The error logged when the final value is not a response instance. -/
def failed_response_message (s : RState) : String :=
  handler_message s ++ " failed to return an HttpResponse (or the " ++
    "post-signal overwrote it).  Returning Http404."

/-- The internal-redirect re-resolution (`module =
import_module(request.dmp_router_module)` followed by `getattr(module,
request.dmp_router_function, None)`): a `ViewDoesNotExist` marker is
constructed when the import fails or the attribute is undefined. -/
def redirect_resolve (env : Env) (m f : String) : Callback :=
  match env.resolve m f with
  | .importError =>
    .viewDoesNotExist ("view " ++ m ++ "." ++ f ++
      " not found during internal redirect.")
  | .notDefined =>
    .viewDoesNotExist ("module " ++ m ++
      " found successfully during internal redirect, but view function " ++
      f ++ " is not defined in the module.")
  | .found cb => cb

/-- The result of one pass through the `while True` body of
`route_request`: the function returns or raises, or control loops back to
the top with an updated dispatch context. -/
inductive StepOut where
  | done (r : Except PyErr Val)
  | next (s : RState)
  deriving DecidableEq, Repr

/-- One pass through the `while True` body of `route_request`: the
middleware check, the error-marker short-circuit (which evaluates
`request.dmp_router_callback.message(request)` -- an `AttributeError` for a
raw `ViewDoesNotExist` exception instance, which defines no such method),
the pre-signal, the callback invocation, the post-signal, the
response-instance validation, and the two redirect exception handlers. -/
def route_step (env : Env) (s : RState) : List Event × StepOut :=
  match s.dmp_router_callback with
  | none =>
    ([], .done (.error (.improperlyConfigured
      ("Variable request.dmp_router_callback does not exist (check " ++
       "MIDDLEWARE for django_mako_plus.RequestInitMiddleware)."))))
  | some cb =>
    match cb with
    | .viewDoesNotExist _ =>
      ([], .done (.error (.attributeError "message")))
    | .registryExc msg =>
      ([.logError msg], .done (.error .http404))
    | .handler out =>
      let preEv : List Event := if env.signals then [.preHook] else []
      match (if env.signals then pre_chain env.pre_hooks else none) with
      | some r => (preEv, .done (.ok r))
      | none =>
        match out with
        | .ret v =>
          let postEv : List Event := if env.signals then [.postHook] else []
          let v2 := if env.signals then post_chain env.post_hooks v else v
          if isResponse v2 then
            (preEv ++ postEv, .done (.ok v2))
          else
            (preEv ++ postEv ++ [.logError (failed_response_message s)],
             .done (.error .http404))
        | .internalRedirect m f =>
          let irEv : List Event :=
            if env.signals then [.internalRedirectHook] else []
          (preEv ++ irEv ++ [.reresolve m f],
           .next { s with
             dmp_router_module := m,
             dmp_router_function := f,
             dmp_router_callback := some (redirect_resolve env m f) })
        | .redirect resp =>
          let logEv : List Event :=
            if s.dmp_router_class = none then
              [.logError (handler_message s ++ " redirected processing.")]
            else []
          let rdEv : List Event := if env.signals then [.redirectHook] else []
          (preEv ++ logEv ++ rdEv, .done (.ok resp))

/-- The overall result of `route_request`: a returned response, a raised
exception, or non-termination within the given fuel (the source's loop has
no bound on internal-redirect chains). -/
inductive LoopResult where
  | response (v : Val)
  | exn (e : PyErr)
  | spin
  deriving DecidableEq, Repr

/-- `route_request(request, **kwargs)`: iterate the loop body, accumulating
the observable events, until it returns, raises, or the fuel runs out. -/
def route_request (env : Env) : Nat → RState → List Event × LoopResult
  | 0, _ => ([], .spin)
  | n + 1, s =>
    match route_step env s with
    | (ev, .done (.ok v)) => (ev, .response v)
    | (ev, .done (.error e)) => (ev, .exn e)
    | (ev, .next s1) =>
      let rest := route_request env n s1
      (ev ++ rest.1, rest.2)

/-- `sub` occurs verbatim inside `msg`. -/
def mentions (msg sub : String) : Prop :=
  ∃ a b, msg = a ++ sub ++ b

theorem str_append_assoc : ∀ a b c : String, a ++ b ++ c = a ++ (b ++ c)
  | ⟨a⟩, ⟨b⟩, ⟨c⟩ => congrArg String.mk (List.append_assoc a b c)

theorem lookup_filter_ne (kw : Dict) (n m : String) (h : m ≠ n) :
    (kw.filter fun kv => kv.1 != n).lookup m = kw.lookup m := by
  induction kw with
  | nil => rfl
  | cons hd tl ih =>
    obtain ⟨a, b⟩ := hd
    by_cases hh : a = n
    · subst hh
      have hb : (m == a) = false := beq_eq_false_iff_ne.mpr h
      simp [List.filter_cons, List.lookup, hb, ih]
    · have hb : (a != n) = true := bne_iff_ne.mpr hh
      simp only [List.filter_cons, hb, if_true]
      simp only [List.lookup]
      cases hmk : (m == a) <;> simp [ih]

theorem arg_loop_snd (tc : Conv) (ct : ConversionTask) (up : List String) :
    ∀ (ps : List (ViewParameter × Option Conv)) (i : Nat) (kw : Dict),
      (arg_loop tc ct up ps i kw).2 =
        kw.filter fun kv => !((ps.map fun q => q.1.name).contains kv.1) := by
  intro ps
  induction ps with
  | nil => intro i kw; simp [arg_loop]
  | cons hd tl ih =>
    intro i kw
    obtain ⟨p, oc⟩ := hd
    simp only [arg_loop, ih]
    rw [List.filter_filter]
    apply List.filter_congr
    intro kv _
    simp only [List.map_cons, List.contains_cons]
    cases h1 : (kv.1 == p.name) <;> simp [bne, h1]

theorem expected_args_filter_ne (tc : Conv) (ct : ConversionTask)
    (up : List String) (kw : Dict) (n : String) :
    ∀ (ps : List (ViewParameter × Option Conv)) (i : Nat),
      (∀ q ∈ ps, q.1.name ≠ n) →
      expected_args tc ct up (kw.filter fun kv => kv.1 != n) ps i =
        expected_args tc ct up kw ps i := by
  intro ps
  induction ps with
  | nil => intro i _; rfl
  | cons hd tl ih =>
    intro i hns
    obtain ⟨p, oc⟩ := hd
    have hp : p.name ≠ n := hns (p, oc) (by simp)
    simp only [expected_args, chosen_value, lookup_filter_ne kw n p.name hp]
    rw [ih (i + 1) fun q hq => hns q (by simp [hq])]

theorem arg_loop_fst (tc : Conv) (ct : ConversionTask) (up : List String) :
    ∀ (ps : List (ViewParameter × Option Conv)) (i : Nat) (kw : Dict),
      (ps.map fun q => q.1.name).Nodup →
      (arg_loop tc ct up ps i kw).1 = expected_args tc ct up kw ps i := by
  intro ps
  induction ps with
  | nil => intro i kw _; rfl
  | cons hd tl ih =>
    intro i kw hnd
    obtain ⟨p, oc⟩ := hd
    simp only [List.map_cons, List.nodup_cons] at hnd
    simp only [arg_loop, expected_args, chosen_value]
    refine congrArg _ ?_
    rw [ih (i + 1) _ hnd.2]
    exact expected_args_filter_ne tc ct up kw p.name tl (i + 1)
      (fun q hq hqn => hnd.1 (hqn ▸ List.mem_map_of_mem (fun q => q.1.name) hq))

/-- The identity converter, used as a concrete conversion pipeline in the
evaluation examples below. -/
def idConv : Conv := fun v _ _ => v

/-- A concrete one-parameter view-function router: parameter `x` with no
annotation, no default, and no parameter-specific converter. -/
def vfr_x : ViewFunctionRouter :=
  { module := "homepage.views.index"
    function := "process_request"
    parameters := [(⟨"x", none, .empty⟩, none)]
    task_converter := idConv }

/-- A request carrying one positional url segment `"5"`. -/
def req_5 : Request :=
  { method := "GET", path := "/homepage/index/5", urlparams := ["5"] }

/-- Extra kwargs binding the declared parameter name `x` to `"7"`. -/
def kw_x7 : Dict := [("x", .str "7")]

/-- C1, counterexample to the claim as stated.  With one positional url
value `"5"` provided for the declared parameter `x` and a same-named
extraKwargs entry `"7"`, the claim mandates that `x` receive the positional
value `"5"`; the source's `kwargs.pop(parameter.name, request.urlparams[i])`
hands `x` the extraKwargs value `"7"` instead, so the built argument list
differs from the claimed one at this input. -/
theorem c1_claim_counterexample :
    (vfr_x.get_response req_5 kw_x7).map Prod.fst =
      Except.ok [Val.reqObj, Val.str "7"] ∧
    (vfr_x.get_response req_5 kw_x7).map Prod.fst ≠
      Except.ok [Val.reqObj,
        apply_converter vfr_x.task_converter
          ⟨vfr_x.module, vfr_x.function⟩ none
          (claim_chosen_value kw_x7 ⟨"x", none, .empty⟩ req_5.urlparams 0)
          ⟨"x", none, .empty⟩] := by
  constructor
  · rfl
  · decide

/-- C1 (amended): for every invocation of `ViewFunctionRouter.get_response`
with at most as many positional url values as declared parameters (and the
declared parameter names distinct, as a Python signature guarantees), each
declared parameter in order receives the same-named extraKwargs value if one
is present, otherwise the corresponding positional url value (the empty
segment when none is provided, which the conversion pipeline maps to the
declared default); the chosen value is run through exactly one converter --
the parameter-specific converter if set, else the task's converter -- and
the converted values form a positional argument list whose first element is
the request object.  `expected_args` states exactly this selection and
single conversion per parameter. -/
theorem c1_parameter_binding (vfr : ViewFunctionRouter) (req : Request)
    (kw : Dict)
    (hlen : req.urlparams.length ≤ vfr.parameters.length)
    (hnames : (vfr.parameters.map fun q => q.1.name).Nodup) :
    (vfr.get_response req kw).map Prod.fst =
      Except.ok (Val.reqObj ::
        expected_args vfr.task_converter ⟨vfr.module, vfr.function⟩
          req.urlparams kw vfr.parameters 0) := by
  have hc : check_length req.urlparams vfr.parameters.length = .ok () := by
    simp [check_length, Nat.not_lt.mpr hlen]
  simp only [ViewFunctionRouter.get_response, hc, Except.map]
  rw [arg_loop_fst _ _ _ _ _ _ hnames]

/-- C1, witness: the amended theorem applied at the concrete router,
request and kwargs of the counterexample. -/
theorem c1_parameter_binding_witness :
    req_5.urlparams.length ≤ vfr_x.parameters.length ∧
    (vfr_x.parameters.map fun q => q.1.name).Nodup ∧
    (vfr_x.get_response req_5 kw_x7).map Prod.fst =
      Except.ok (Val.reqObj ::
        expected_args vfr_x.task_converter ⟨vfr_x.module, vfr_x.function⟩
          req_5.urlparams kw_x7 vfr_x.parameters 0) :=
  ⟨by decide, by decide,
    c1_parameter_binding vfr_x req_5 kw_x7 (by decide) (by decide)⟩

/-- C9: whenever the number of positional url parameters exceeds the number
of declared parameters, `ViewFunctionRouter.get_response` fails with the
not-found signal raised by the length check, before any conversion; it
never reaches the indexing loop. -/
theorem c9_too_many_urlparams (vfr : ViewFunctionRouter) (req : Request)
    (kw : Dict)
    (hlen : vfr.parameters.length < req.urlparams.length) :
    vfr.get_response req kw = .error .http404 := by
  simp [ViewFunctionRouter.get_response, check_length, hlen]

/-- C9, witness: two url segments against the one-parameter router. -/
theorem c9_too_many_urlparams_witness :
    vfr_x.parameters.length <
      (Request.mk "GET" "/homepage/index/5/6" ["5", "6"]).urlparams.length ∧
    vfr_x.get_response (Request.mk "GET" "/homepage/index/5/6" ["5", "6"])
      kw_x7 = .error .http404 :=
  ⟨by decide,
    c9_too_many_urlparams vfr_x
      (Request.mk "GET" "/homepage/index/5/6" ["5", "6"]) kw_x7 (by decide)⟩

/-- C10: on every successful `ViewFunctionRouter.get_response` path, each
extraKwargs entry whose key names a declared parameter is popped before the
final handler call, so the keyword arguments handed to the handler are
exactly the entries whose keys match no declared parameter; no name is
passed both positionally and as a keyword. -/
theorem c10_kwargs_popped (vfr : ViewFunctionRouter) (req : Request)
    (kw : Dict)
    (hlen : req.urlparams.length ≤ vfr.parameters.length) :
    (vfr.get_response req kw).map Prod.snd =
      Except.ok (kw.filter fun kv =>
        !((vfr.parameters.map fun q => q.1.name).contains kv.1)) := by
  have hc : check_length req.urlparams vfr.parameters.length = .ok () := by
    simp [check_length, Nat.not_lt.mpr hlen]
  simp only [ViewFunctionRouter.get_response, hc, Except.map]
  rw [arg_loop_snd]

/-- C10, witness: the kwargs entry for the declared parameter `x` is
removed, the unrelated entry survives. -/
theorem c10_kwargs_popped_witness :
    req_5.urlparams.length ≤ vfr_x.parameters.length ∧
    (vfr_x.get_response req_5 [("x", .str "7"), ("other", .str "z")]).map
        Prod.snd =
      Except.ok ([("x", Val.str "7"), ("other", Val.str "z")].filter
        fun kv =>
          !((vfr_x.parameters.map fun q => q.1.name).contains kv.1)) :=
  ⟨by decide,
    c10_kwargs_popped vfr_x req_5 [("x", .str "7"), ("other", .str "z")]
      (by decide)⟩

/-- C4: the source of `RegistryExceptionRouter.get_response` executes
`return HttpResponseNotFound(str(self.exc))`, but `router.py` never imports
`HttpResponseNotFound`, so every invocation raises `NameError` instead of
returning the intended not-found response carrying the diagnostic. -/
theorem c4_get_response_name_error (r : RegistryExceptionRouter)
    (req : Request) (kw : Dict) :
    r.get_response req kw = .error (.nameError "HttpResponseNotFound") := by
  rfl

/-- A concrete environment in which module `homepage.views.missing` has no
spec and the fallback template `missing.html` cannot be loaded. -/
def env_no_view : FactoryEnv :=
  { find_spec := fun _ => .absent
    import_mod := fun _ => .ok ()
    get_attr := fun _ _ => none
    load_template := fun _ _ => .error "missing.html" }

/-- An environment in which the spec lookup itself raises
`ModuleNotFoundError`: a dotted module name whose parent package is
missing or is a plain module.  Only `ValueError` is caught around
`find_spec`, and the outer handler catches only `ViewDoesNotExist`. -/
def env_spec_raises : FactoryEnv :=
  { find_spec := fun _ =>
      .moduleNotFound "No module named homepage.views"
    import_mod := fun _ => .ok ()
    get_attr := fun _ _ => none
    load_template := fun _ _ => .ok () }

/-- C2, counterexample to the claim as stated: when `find_spec` raises
`ModuleNotFoundError` for the requested module path, `router_factory`
raises that exception to its caller instead of returning a resolver -- the
`except ValueError` around the spec lookup and the outer `except
ViewDoesNotExist` both miss it. -/
theorem c2_claim_counterexample :
    router_factory env_spec_raises "homepage" "homepage.views.index"
        "process_request" "index.html" =
      .error (.moduleNotFoundError "No module named homepage.views") ∧
    ∀ r, router_factory env_spec_raises "homepage" "homepage.views.index"
        "process_request" "index.html" ≠ Except.ok r := by
  refine ⟨rfl, fun r h => ?_⟩
  rw [show router_factory env_spec_raises "homepage" "homepage.views.index"
      "process_request" "index.html" =
    .error (.moduleNotFoundError "No module named homepage.views")
    from rfl] at h
  exact Except.noConfusion h

/-- C2 (amended): for every collaborator environment and every (appName,
modulePath, functionName, fallbackTemplateName), provided the module spec
lookup does not itself raise (only `ValueError` is caught around it) and,
when a spec is found, importing the module succeeds (the source leaves
`import_module` deliberately unguarded), `router_factory` returns a
resolver and raises nothing to its caller: each failure along the lookup
path (module absent, function absent, function undecorated, fallback
template missing) is raised as `ViewDoesNotExist` inside the body and
folded into a returned `RegistryExceptionRouter` by the outer handler. -/
theorem c2_factory_never_raises (env : FactoryEnv)
    (app_name module_name function_name fallback_template : String)
    (hspec : ∀ msg, env.find_spec module_name ≠ .moduleNotFound msg)
    (himp : env.find_spec module_name = .found →
      env.import_mod module_name = Except.ok ()) :
    ∃ r, router_factory env app_name module_name function_name
      fallback_template = Except.ok r := by
  unfold router_factory router_factory_body
  cases hs : env.find_spec module_name
  case found =>
    rw [himp hs]
    cases env.get_attr module_name function_name with
    | none => exact ⟨_, rfl⟩
    | some func =>
      by_cases hc : func.is_class_view = true
      · simp only [hc, if_true]
        exact ⟨_, rfl⟩
      · by_cases hd : func.decorated = true
        · simp only [hc, hd, if_true, if_false]
          exact ⟨_, rfl⟩
        · simp only [hc, hd, if_false]
          exact ⟨_, rfl⟩
  case absent =>
    cases env.load_template app_name fallback_template with
    | ok u => exact ⟨_, rfl⟩
    | error e => exact ⟨_, rfl⟩
  case valueError =>
    cases env.load_template app_name fallback_template with
    | ok u => exact ⟨_, rfl⟩
    | error e => exact ⟨_, rfl⟩
  case moduleNotFound msg =>
    exact absurd hs (hspec msg)

/-- C2, witness: the amended theorem applied in `env_no_view`, whose spec
lookup reports the module absent without raising. -/
theorem c2_factory_never_raises_witness :
    (∀ msg, env_no_view.find_spec "homepage.views.missing" ≠
      FindSpecResult.moduleNotFound msg) ∧
    (env_no_view.find_spec "homepage.views.missing" = .found →
      env_no_view.import_mod "homepage.views.missing" = Except.ok ()) ∧
    ∃ r, router_factory env_no_view "homepage" "homepage.views.missing"
      "process_request" "missing.html" = Except.ok r :=
  ⟨fun _ h => by simp [env_no_view] at h,
    fun h => by simp [env_no_view] at h,
    c2_factory_never_raises env_no_view "homepage" "homepage.views.missing"
      "process_request" "missing.html"
      (fun _ h => by simp [env_no_view] at h)
      (fun h => by simp [env_no_view] at h)⟩

/-- C5: when the module spec cannot be located (whether `find_spec` returns
`None` or raises the caught `ValueError`) and the fallback template cannot
be loaded either, `router_factory` returns a `RegistryExceptionRouter`
whose diagnostic mentions both the missing view module and the unloadable
fallback template. -/
theorem c5_both_failures_mentioned (env : FactoryEnv)
    (app_name module_name function_name fallback_template e : String)
    (hspec : env.find_spec module_name = .absent ∨
      env.find_spec module_name = .valueError)
    (htmpl : env.load_template app_name fallback_template =
      .error e) :
    ∃ msg, router_factory env app_name module_name function_name
        fallback_template = Except.ok (.registryException msg) ∧
      mentions msg module_name ∧ mentions msg fallback_template := by
  refine ⟨"View module " ++ module_name ++
    " not found, and fallback template " ++ fallback_template ++
    " could not be loaded (" ++ e ++ ")", ?_, ?_, ?_⟩
  · unfold router_factory router_factory_body
    rcases hspec with hs | hs <;> simp [hs, htmpl]
  · exact ⟨"View module ",
      " not found, and fallback template " ++ fallback_template ++
        " could not be loaded (" ++ e ++ ")",
      by simp [str_append_assoc]⟩
  · exact ⟨"View module " ++ module_name ++
      " not found, and fallback template ",
      " could not be loaded (" ++ e ++ ")",
      by simp [str_append_assoc]⟩

/-- C5, witness: the theorem applied in `env_no_view`. -/
theorem c5_both_failures_mentioned_witness :
    (env_no_view.find_spec "homepage.views.missing" = .absent ∨
      env_no_view.find_spec "homepage.views.missing" = .valueError) ∧
    env_no_view.load_template "homepage" "missing.html" =
      .error "missing.html" ∧
    ∃ msg, router_factory env_no_view "homepage" "homepage.views.missing"
        "process_request" "missing.html" =
        Except.ok (.registryException msg) ∧
      mentions msg "homepage.views.missing" ∧ mentions msg "missing.html" :=
  ⟨Or.inl rfl, rfl,
    c5_both_failures_mentioned env_no_view "homepage"
      "homepage.views.missing" "process_request" "missing.html"
      "missing.html" (Or.inl rfl) rfl⟩

/-- C3: a class-based view defining exactly the HTTP methods `get` and
`post` (among django's recognized method names) yields a `ClassBasedRouter`
that sends a GET request to the `ViewFunctionRouter` endpoint wrapping the
bound `get` method, and answers a DELETE request with a 405
method-not-allowed response listing exactly `GET, POST`. -/
theorem c3_class_router_dispatch (inst : ViewInstance) (g p : String)
    (path1 path2 : String) (up1 up2 : List String) (kw1 kw2 : Dict)
    (hnames : inst.http_method_names = View_http_method_names)
    (hget : inst.method "get" = some g)
    (hpost : inst.method "post" = some p)
    (hother : ∀ m, m ≠ "get" → m ≠ "post" → inst.method m = none) :
    (ClassBasedRouter.init inst).get_response
        (Request.mk "GET" path1 up1) kw1 = .delegate g ∧
    (ClassBasedRouter.init inst).get_response
        (Request.mk "DELETE" path2 up2) kw2 =
      .methodNotAllowed ["GET", "POST"] := by
  have hend : (ClassBasedRouter.init inst).endpoints = [("get", g), ("post", p)] := by
    simp [ClassBasedRouter.init, hnames, View_http_method_names,
      List.filterMap_cons, hget, hpost,
      hother "put" (by decide) (by decide),
      hother "patch" (by decide) (by decide),
      hother "delete" (by decide) (by decide),
      hother "head" (by decide) (by decide),
      hother "options" (by decide) (by decide),
      hother "trace" (by decide) (by decide)]
  constructor
  · simp [ClassBasedRouter.get_response, hend]
    rfl
  · simp [ClassBasedRouter.get_response, hend]
    rfl

/-- A concrete class-based view instance defining exactly `get` and
`post`. -/
def inst_get_post : ViewInstance :=
  { http_method_names := View_http_method_names
    method := fun m =>
      if m = "get" then some "index.get"
      else if m = "post" then some "index.post" else none }

/-- C3, witness: the theorem applied to `inst_get_post`. -/
theorem c3_class_router_dispatch_witness :
    (ClassBasedRouter.init inst_get_post).get_response
        (Request.mk "GET" "/homepage/index" []) [] =
      .delegate "index.get" ∧
    (ClassBasedRouter.init inst_get_post).get_response
        (Request.mk "DELETE" "/homepage/index" []) [] =
      .methodNotAllowed ["GET", "POST"] :=
  c3_class_router_dispatch inst_get_post "index.get" "index.post"
    "/homepage/index" "/homepage/index" [] [] [] [] rfl rfl rfl
    (fun m h1 h2 => by simp [inst_get_post, h1, h2])

/-- C6: when the invoked callback raises an internal-redirect signal (and
no pre-signal receiver short-circuits), the loop body performs exactly one
re-resolution: it rewrites the dispatch context's module and function
fields to the signal's target, installs the callback obtained by importing
the new module and looking up the new function (a `ViewDoesNotExist` marker
when either step fails, per `redirect_resolve`), and loops back -- all
before the next invocation attempt, with exactly one re-resolution event in
the pass. -/
theorem c6_internal_redirect_reresolves (env : Env) (s : RState)
    (m f : String)
    (hcb : s.dmp_router_callback =
      some (.handler (.internalRedirect m f)))
    (hpre : env.signals = true → pre_chain env.pre_hooks = none) :
    route_step env s =
      ((if env.signals then [Event.preHook, Event.internalRedirectHook]
        else []) ++ [Event.reresolve m f],
       .next { s with
         dmp_router_module := m,
         dmp_router_function := f,
         dmp_router_callback := some (redirect_resolve env m f) }) ∧
    (route_step env s).1.filter Event.isReresolve = [Event.reresolve m f] := by
  have h1 : route_step env s =
      ((if env.signals then [Event.preHook, Event.internalRedirectHook]
        else []) ++ [Event.reresolve m f],
       .next { s with
         dmp_router_module := m,
         dmp_router_function := f,
         dmp_router_callback := some (redirect_resolve env m f) }) := by
    cases hs : env.signals
    · simp [route_step, hcb, hs]
    · simp [route_step, hcb, hs, hpre hs]
  refine ⟨h1, ?_⟩
  rw [h1]
  cases env.signals <;> simp [Event.isReresolve]

/-- A concrete loop environment with signals enabled, no registered
receivers, and an import that fails for every target. -/
def env_plain : Env :=
  { signals := true
    pre_hooks := []
    post_hooks := []
    resolve := fun _ _ => .importError }

/-- A dispatch context whose cached callback raises an internal redirect to
`other.views.process_request`. -/
def s_redirecting : RState :=
  { dmp_router_callback :=
      some (.handler (.internalRedirect "other.views" "process_request"))
    dmp_router_module := "homepage.views"
    dmp_router_function := "index"
    dmp_router_class := none }

/-- C6, witness: the theorem applied to `env_plain` and `s_redirecting`. -/
theorem c6_internal_redirect_reresolves_witness :
    s_redirecting.dmp_router_callback =
      some (.handler (.internalRedirect "other.views" "process_request")) ∧
    (route_step env_plain s_redirecting =
      ([Event.preHook, Event.internalRedirectHook,
        Event.reresolve "other.views" "process_request"],
       .next { s_redirecting with
         dmp_router_module := "other.views",
         dmp_router_function := "process_request",
         dmp_router_callback :=
           some (redirect_resolve env_plain "other.views"
             "process_request") }) ∧
     (route_step env_plain s_redirecting).1.filter Event.isReresolve =
       [Event.reresolve "other.views" "process_request"]) :=
  ⟨rfl,
    c6_internal_redirect_reresolves env_plain s_redirecting "other.views"
      "process_request" rfl (fun _ => rfl)⟩

/-- C7: the short-circuit for a request whose cached callback is a raw
`ViewDoesNotExist` marker evaluates
`request.dmp_router_callback.message(request)` while building the log
record; django's `ViewDoesNotExist` defines no `message` method, so the
pass raises `AttributeError` (an uncaught server error) instead of the
claimed logged-diagnostic-plus-not-found outcome.  No hook runs, but no
diagnostic is logged and no not-found response is produced. -/
theorem c7_view_not_found_marker_crashes :
    route_request env_plain 3
      { dmp_router_callback :=
          some (.viewDoesNotExist
            ("view other.views.process_request not found during " ++
             "internal redirect."))
        dmp_router_module := "other.views"
        dmp_router_function := "process_request"
        dmp_router_class := none } =
      ([], .exn (.attributeError "message")) := by
  rfl

/-- C8: when the invoked handler returns a value and the value left after
the post-signal chain is not a response instance (for example a plain
string), the loop logs an error and raises `Http404`; the non-response
value is never returned to the caller. -/
theorem c8_non_response_becomes_404 (env : Env) (s : RState) (v : Val)
    (fuel : Nat)
    (hcb : s.dmp_router_callback = some (.handler (.ret v)))
    (hpre : env.signals = true → pre_chain env.pre_hooks = none)
    (hresp : isResponse
      (if env.signals then post_chain env.post_hooks v else v) = false) :
    route_request env (fuel + 1) s =
      ((if env.signals then [Event.preHook] else []) ++
        (if env.signals then [Event.postHook] else []) ++
        [Event.logError (failed_response_message s)],
       .exn .http404) ∧
    ∀ w, (route_request env (fuel + 1) s).2 ≠ LoopResult.response w := by
  have h1 : route_request env (fuel + 1) s =
      ((if env.signals then [Event.preHook] else []) ++
        (if env.signals then [Event.postHook] else []) ++
        [Event.logError (failed_response_message s)],
       .exn .http404) := by
    cases hs : env.signals
    · simp only [hs, Bool.false_eq_true, if_false] at hresp
      simp [route_request, route_step, hcb, hs, hresp]
    · simp only [hs, if_true] at hresp
      simp [route_request, route_step, hcb, hs, hpre hs, hresp]
  refine ⟨h1, fun w => ?_⟩
  rw [h1]
  simp

/-- A dispatch context whose cached callback returns the plain string
`"hello"` instead of a response object. -/
def s_string_view : RState :=
  { dmp_router_callback := some (.handler (.ret (.str "hello")))
    dmp_router_module := "homepage.views"
    dmp_router_function := "index"
    dmp_router_class := none }

/-- C8, witness: the theorem applied to `env_plain` and a handler returning
the plain string `"hello"`. -/
theorem c8_non_response_becomes_404_witness :
    s_string_view.dmp_router_callback =
      some (.handler (.ret (.str "hello"))) ∧
    isResponse (if env_plain.signals then
      post_chain env_plain.post_hooks (.str "hello") else .str "hello") =
      false ∧
    (route_request env_plain 1 s_string_view =
      ([Event.preHook, Event.postHook,
        Event.logError (failed_response_message s_string_view)],
       .exn .http404) ∧
     ∀ w, (route_request env_plain 1 s_string_view).2 ≠
       LoopResult.response w) :=
  ⟨rfl, rfl,
    c8_non_response_becomes_404 env_plain s_string_view (.str "hello") 0
      rfl (fun _ => rfl) rfl⟩

end DMP

